import Mathlib

/-!
Shallow embedding of the runpod-gsplatt-worker pipeline, from
`src/prepare_from_video.py` (dataset preparation) and `src/rp_handler.py`
(job handler, result publishing, video download).

External tools and services (ffmpeg, colmap, boto3/S3, HTTP) are modelled
by environment records carrying their observable outcomes; the Python
control flow around them is translated directly.
-/

namespace GsplattWorker

/-- Events of the dataset-preparation pipeline of `prepare_from_video.py`:
each external invocation or directory operation, recorded in order. -/
inductive PrepEv
  | ffmpegExtract
  | rmImagesDir
  | copyImagesDir
  | featureExtraction
  | exhaustiveMatcher
  | mapper
  deriving DecidableEq, Repr

/-- Errors raised inside `prepare_from_video.py`: a failing external command
(`subprocess.run(..., check=True)`), the `RuntimeError` for fewer than 3
extracted frames, and the `RuntimeError` for a missing sparse reconstruction. -/
inductive PrepErr
  | commandFailure (stage : PrepEv)
  | insufficientFrames (n : Nat)
  | reconstructionFailure
  deriving DecidableEq, Repr

/-- Outcomes of the external tools invoked by `prepare_from_video.py`:
whether each invocation exits 0, the jpg frames ffmpeg writes into the
input directory, and the entries `sparse_dir.glob` returns after mapping. -/
structure PrepEnv where
  ffmpegOk : Bool
  extractedFrames : List String
  featOk : Bool
  matchOk : Bool
  mapOk : Bool
  sparseEntries : List String
  deriving DecidableEq, Repr

/-- Embedding of `extract_frames` (prepare_from_video.py lines 49-78): runs ffmpeg into
the output directory and returns the count of `*.jpg` files produced.
A nonzero ffmpeg exit raises `CalledProcessError`. -/
def extract_frames (env : PrepEnv) : List PrepEv × Except PrepErr Nat :=
  if env.ffmpegOk then ([PrepEv.ffmpegExtract], Except.ok env.extractedFrames.length)
  else ([PrepEv.ffmpegExtract], Except.error (PrepErr.commandFailure PrepEv.ffmpegExtract))

/-- The reconstruction-directory selection of `run_colmap_pipeline`
(prepare_from_video.py lines 158-166): prefer `sparse/0`; if absent, take
the first entry of `sparse_dir.glob`; raise if there is none. -/
def selectReconstruction (entries : List String) : Except PrepErr String :=
  if "0" ∈ entries then Except.ok "0"
  else
    match entries with
    | [] => Except.error PrepErr.reconstructionFailure
    | e :: _ => Except.ok e

/-- Embedding of `run_colmap_pipeline` (prepare_from_video.py lines 135-169): feature
extraction, exhaustive matching, mapping, in that order, each fail-fast;
then the reconstruction-directory check.  The returned string is the name of
the reconstruction directory the check selects (the Python logs it and
returns `sparse_dir`). -/
def run_colmap_pipeline (env : PrepEnv) : List PrepEv × Except PrepErr String :=
  if env.featOk = false then
    ([PrepEv.featureExtraction], Except.error (PrepErr.commandFailure PrepEv.featureExtraction))
  else if env.matchOk = false then
    ([PrepEv.featureExtraction, PrepEv.exhaustiveMatcher],
      Except.error (PrepErr.commandFailure PrepEv.exhaustiveMatcher))
  else if env.mapOk = false then
    ([PrepEv.featureExtraction, PrepEv.exhaustiveMatcher, PrepEv.mapper],
      Except.error (PrepErr.commandFailure PrepEv.mapper))
  else
    ([PrepEv.featureExtraction, PrepEv.exhaustiveMatcher, PrepEv.mapper],
      selectReconstruction env.sparseEntries)

/-- Result of a `prepare_scene` run: the ordered trace of external
invocations / directory operations, the final contents of the `images`
working directory (`none` = absent), and the overall outcome. -/
structure PrepOutcome where
  trace : List PrepEv
  imagesDir : Option (List String)
  result : Except PrepErr String
  deriving Repr

/-- Embedding of `prepare_scene` (prepare_from_video.py lines 172-219): extract frames,
validate the count against the hard minimum 3, wholesale-replace the
`images` directory with a copy of `input` (rmtree if it exists, then
copytree), then run the COLMAP pipeline.  `fps` parameterises the external
ffmpeg invocation, whose output `env.extractedFrames` models;
`initImages` is the pre-existing contents of the `images` directory. -/
def prepare_scene (env : PrepEnv) (fps : Nat) (initImages : Option (List String)) :
    PrepOutcome :=
  match extract_frames env with
  | (t, Except.error e) => ⟨t, initImages, Except.error e⟩
  | (t, Except.ok num) =>
    if num < 3 then ⟨t, initImages, Except.error (PrepErr.insufficientFrames num)⟩
    else
      let dupTrace := (if initImages.isSome then [PrepEv.rmImagesDir] else []) ++
        [PrepEv.copyImagesDir]
      let colmap := run_colmap_pipeline env
      ⟨t ++ dupTrace ++ colmap.1, some env.extractedFrames, colmap.2⟩

/-- Errors of `download_video` (rp_handler.py lines 55-70): the
`requests.raise_for_status` HTTPError (raised for 4xx/5xx statuses) and the
`FileNotFoundError` that `open(dst, "wb")` raises when the destination's
parent directory is absent. -/
inductive FetchErr
  | httpError (status : Nat)
  | fileNotFound (dst : String)
  deriving DecidableEq, Repr

/-- Observable result of a `download_video` call: the outcome (ok carries
the byte count reported by the function), whether the destination's parent
directory exists afterwards, and the destination file's content afterwards
(`none` = absent). -/
structure FetchOut where
  result : Except FetchErr Nat
  parentExists : Bool
  dst : Option String
  deriving Repr

/-- Embedding of `download_video` (rp_handler.py lines 55-70): streaming GET; then
`raise_for_status` (which raises exactly on 4xx/5xx) before the destination
is opened; then `open(dst, "wb")` — truncating, and failing if the parent
directory does not exist (the function never creates directories); then the
non-empty chunks are written in order.  `status` is the final HTTP status,
`chunks` the chunks `iter_content` yields, `parentExists0` and `dst0` the
prior state of the destination's parent directory and of the file itself. -/
def download_video (status : Nat) (chunks : List String) (parentExists0 : Bool)
    (dstPath : String) (dst0 : Option String) : FetchOut :=
  if 400 ≤ status ∧ status < 600 then
    ⟨Except.error (FetchErr.httpError status), parentExists0, dst0⟩
  else if parentExists0 = false then
    ⟨Except.error (FetchErr.fileNotFound dstPath), parentExists0, dst0⟩
  else
    let written := String.join (chunks.filter (fun c => ¬ c = ""))
    ⟨Except.ok written.length, true, some written⟩

/-- The two publish sink strategies of rp_handler.py. -/
inductive Sink
  | s3
  | http
  deriving DecidableEq, Repr

/-- Errors of the publish functions: a boto3 upload exception (re-raised by
`upload_results_s3`), the `raise_for_status` HTTPError of the simple PUT
(raised for 4xx/5xx), and the `ValueError` for a missing
`OUTPUT_BUCKET_URL`. -/
inductive UploadErr
  | s3Failure (msg : String)
  | httpFailure (status : Nat) (url : String)
  | noBucketUrl
  deriving DecidableEq, Repr

/-- The `str(e)` the handler captures for each publish error (the texts of
the external libraries' exceptions are modelled up to their identifying
data; the `ValueError` text is the literal from rp_handler.py line 135). -/
def UploadErr.message : UploadErr → String
  | UploadErr.s3Failure m => m
  | UploadErr.httpFailure s u => toString s ++ " Error for url: " ++ u
  | UploadErr.noBucketUrl => "OUTPUT_BUCKET_URL not configured"

/-- Environment of the publish functions: availability of the boto3 client,
the outcome of an attempted S3 upload, the status of an attempted HTTP PUT,
and the process-start configuration read from the environment variables at
rp_handler.py lines 30-35. -/
structure UploadEnv where
  boto3Available : Bool
  s3UploadOk : Bool
  s3ErrMsg : String
  putStatus : Nat
  OUTPUT_BUCKET_URL : String
  OUTPUT_BUCKET_KEY : String
  AWS_ACCESS_KEY_ID : String
  AWS_SECRET_ACCESS_KEY : String
  S3_ENDPOINT_URL : String
  S3_BUCKET_NAME : String
  deriving DecidableEq, Repr

/-- The archive name `f"{scene_id}.zip"` (rp_handler.py lines 83, 137). -/
def zipName (sid : String) : String := sid ++ ".zip"

/-- The archive path `result_dir.parent / zip_name`
(rp_handler.py lines 84, 138). -/
def zipPath (parent sid : String) : String := parent ++ "/" ++ zipName sid

/-- Embedding of `shutil.make_archive` at the deterministic zip path: creates or
replaces the archive of the result directory (whose content is modelled by
one string), leaving every other path untouched.  The filesystem is a map
from paths to file contents. -/
def make_archive (parent sid content : String) (fs : String → Option String) :
    String → Option String :=
  fun p => if p = zipPath parent sid then some content else fs p

/-- Observable result of a publish call: the filesystem afterwards, the
sink strategy whose code performed the attempt, and the outcome (ok carries
the returned public URL). -/
structure UploadOut where
  fs : String → Option String
  sink : Sink
  result : Except UploadErr String

/-- Embedding of `upload_results_simple` (rp_handler.py lines 130-158): fail when no
`OUTPUT_BUCKET_URL` is configured (before creating any archive), otherwise
archive the result directory and PUT it, with `raise_for_status` failing on
a 4xx/5xx response; on success return the conventional URL. -/
def upload_results_simple (env : UploadEnv) (parent sid content : String)
    (fs : String → Option String) : UploadOut :=
  if env.OUTPUT_BUCKET_URL = "" then ⟨fs, Sink.http, Except.error UploadErr.noBucketUrl⟩
  else
    let fs2 := make_archive parent sid content fs
    let url := env.OUTPUT_BUCKET_URL ++ "/" ++ zipName sid
    if 400 ≤ env.putStatus ∧ env.putStatus < 600 then
      ⟨fs2, Sink.http, Except.error (UploadErr.httpFailure env.putStatus url)⟩
    else ⟨fs2, Sink.http, Except.ok url⟩

/-- The public URL `upload_results_s3` constructs
(rp_handler.py lines 113-117). -/
def s3PublicUrl (env : UploadEnv) (sid : String) : String :=
  if env.S3_ENDPOINT_URL = "" then
    "https://" ++ env.S3_BUCKET_NAME ++ ".s3.amazonaws.com/results/" ++ zipName sid
  else env.S3_ENDPOINT_URL ++ "/" ++ env.S3_BUCKET_NAME ++ "/results/" ++ zipName sid

/-- Embedding of `upload_results_s3` (rp_handler.py lines 73-127): when boto3 imports,
archive the result directory and upload via the S3 client — any upload
exception is logged and re-raised (no fallback); when the import fails,
fall back to `upload_results_simple`.  Note the S3 path is taken whenever
boto3 is importable, regardless of which configuration is present. -/
def upload_results_s3 (env : UploadEnv) (parent sid content : String)
    (fs : String → Option String) : UploadOut :=
  if env.boto3Available then
    let fs2 := make_archive parent sid content fs
    if env.s3UploadOk then ⟨fs2, Sink.s3, Except.ok (s3PublicUrl env sid)⟩
    else ⟨fs2, Sink.s3, Except.error (UploadErr.s3Failure env.s3ErrMsg)⟩
  else upload_results_simple env parent sid content fs

/-- Modelled from the spec: the sink selection the spec describes —
"selected by which configuration is present at process start
(object-storage credentials+endpoint vs. a generic HTTP endpoint with
optional bearer token)" — stated for comparison with the code's actual
selection, which the source makes by boto3 availability instead. -/
def sinkSelectedByConfig (env : UploadEnv) : Option Sink :=
  if ¬ env.AWS_ACCESS_KEY_ID = "" ∨ ¬ env.AWS_SECRET_ACCESS_KEY = "" ∨
      ¬ env.S3_ENDPOINT_URL = "" then some Sink.s3
  else if ¬ env.OUTPUT_BUCKET_URL = "" then some Sink.http
  else none

/-- A deployment with no object-storage configuration but a configured HTTP
endpoint, where boto3 happens to be importable and the (unconfigured) S3
upload fails. -/
def uenvX : UploadEnv :=
  ⟨true, false, "AccessDenied", 200, "http://sink.example", "", "", "", "",
    "gsplatt-results"⟩

/-- The single-quote character, used when modelling Python exception
texts. -/
def sq : String := String.singleton (Char.ofNat 39)

/-- Python single-quoting of a string, as in `repr` and `KeyError`. -/
def pyQuoted (c : String) : String := sq ++ c ++ sq

/-- Python `repr` of a list of strings, as `%s`-formatted into
`CalledProcessError` messages. -/
def pyListRepr (cmd : List String) : String :=
  "[" ++ String.intercalate ", " (cmd.map pyQuoted) ++ "]"

/-- The `str` of the `CalledProcessError` that `subprocess.run(cmd,
check=True)` raises on a nonzero exit status. -/
def calledProcessErrorMsg (cmd : List String) (code : Nat) : String :=
  "Command " ++ pyQuoted (pyListRepr cmd) ++ " returned non-zero exit status " ++
    toString code ++ "."

/-- The job dictionary the invoking runtime passes to `handler`:
`hasVideoUrl` models whether `job["input"]["video_url"]` resolves (a
missing key raises `KeyError`), `scene_id` is `job_input.get("scene_id")`
(`none` = absent), and `iterations` and `fps` are the resolved
`params.get` values with their defaults 30000 and 2 applied. -/
structure Job where
  hasVideoUrl : Bool
  video_url : String
  scene_id : Option String
  iterations : Nat
  fps : Nat

/-- The terminal Job Result dictionary `handler` returns: either
`{status: "success", scene_id, progress, plt_url}` or
`{status: "fail", error, progress}`. -/
inductive JobResult
  | success (scene_id : String) (progress : Nat) (plt_url : String)
  | fail (error : String) (progress : Nat)
  deriving DecidableEq, Repr

/-- The `status` field of a Job Result. -/
def JobResult.statusOf : JobResult → String
  | JobResult.success _ _ _ => "success"
  | JobResult.fail _ _ => "fail"

/-- The `progress` field of a Job Result. -/
def JobResult.progressOf : JobResult → Nat
  | JobResult.success _ p _ => p
  | JobResult.fail _ p => p

/-- The `error` field of a Job Result (absent on success). -/
def JobResult.errorOf : JobResult → Option String
  | JobResult.success _ _ _ => none
  | JobResult.fail e _ => some e

/-- External-world outcomes for one `handler` run: the UUID
`str(uuid.uuid4())` would produce, the download outcome, the
dataset-preparation environment (driving the `prepare_from_video.py`
subprocess), the pre-existing contents of the scene's `images` directory,
the trainer subprocess's exit code, the publish environment, the trained
output directory's content, the ambient filesystem for the publish step,
and whether the final `shutil.rmtree` cleanup succeeds. -/
structure HandlerEnv where
  freshUuid : String
  downloadOk : Bool
  downloadErrMsg : String
  penv : PrepEnv
  imagesDir0 : Option (List String)
  trainExitCode : Nat
  uenv : UploadEnv
  outputContent : String
  fs0 : String → Option String
  cleanupOk : Bool

/-- Observable outcome of one `handler` run: the progress updates emitted
to the runtime in order, the returned Job Result, whether the
`shutil.rmtree` cleanup was attempted, and whether the workspace was
actually removed. -/
structure HandlerOut where
  updates : List (Nat × String)
  result : JobResult
  cleanupAttempted : Bool
  workspaceRemoved : Bool

/-- Embedding of `scene_id = job_input.get("scene_id") or str(uuid.uuid4())`
(rp_handler.py line 184): Python `or` takes the fresh UUID when the
supplied value is absent or falsy (the empty string). -/
def sceneIdOf (freshUuid : String) (job : Job) : String :=
  match job.scene_id with
  | some s => if s = "" then freshUuid else s
  | none => freshUuid

/-- The process-wide working directory (rp_handler.py line 37). -/
def WORKDIR : String := "/workspace"

/-- The job's scene workspace `WORKDIR / "scenes" / scene_id`
(rp_handler.py line 185). -/
def sceneRootOf (env : HandlerEnv) (job : Job) : String :=
  WORKDIR ++ "/scenes/" ++ sceneIdOf env.freshUuid job

/-- The dataset-preparation command (rp_handler.py lines 199-204). -/
def prepareCmd (scene_root : String) (fps : Nat) : List String :=
  ["python3", "/workspace/prepare_from_video.py", "--video",
    scene_root ++ "/input.mp4", "--out", scene_root, "--fps", toString fps]

/-- The trainer command (rp_handler.py lines 214-219). -/
def trainCmd (scene_root : String) (iterations : Nat) : List String :=
  ["python3", "train.py", "-s", scene_root, "-m", scene_root ++ "/output",
    "--iterations=" ++ toString iterations]

/-- Whether the `prepare_from_video.py` subprocess exits 0: its `main`
exits nonzero exactly when `prepare_scene` raises. -/
def prepOk (env : HandlerEnv) (job : Job) : Bool :=
  match (prepare_scene env.penv job.fps env.imagesDir0).result with
  | Except.ok _ => true
  | Except.error _ => false

/-- The publish call the handler makes: `upload_results_s3(output_dir,
scene_id)` with `output_dir = scene_root / "output"`, so the archive goes
to `output_dir.parent = scene_root`. -/
def uploadRes (env : HandlerEnv) (job : Job) : UploadOut :=
  upload_results_s3 env.uenv (sceneRootOf env job) (sceneIdOf env.freshUuid job)
    env.outputContent env.fs0

/-- Whether the publish call returns (rather than raises). -/
def uploadOkB (env : HandlerEnv) (job : Job) : Bool :=
  match (uploadRes env job).result with
  | Except.ok _ => true
  | Except.error _ => false

/-- The URL the publish call returns on success. -/
def uploadUrlOf (env : HandlerEnv) (job : Job) : String :=
  match (uploadRes env job).result with
  | Except.ok u => u
  | Except.error _ => ""

/-- The `str(e)` of the publish exception on failure. -/
def uploadErrOf (env : HandlerEnv) (job : Job) : String :=
  match (uploadRes env job).result with
  | Except.ok _ => ""
  | Except.error e => e.message

/-- The progress updates of a fully successful run
(rp_handler.py lines 189, 194, 197, 206, 209, 221, 224, 228). -/
def fullUpdates : List (Nat × String) :=
  [(0, "downloading_video"), (10, "video_downloaded"), (10, "preparing_dataset"),
    (30, "dataset_ready"), (30, "training"), (90, "training_complete"),
    (90, "uploading"), (100, "done")]

/-- Embedding of `handler` (rp_handler.py lines 161-249): the whole body runs under one
`try`; any exception of any stage is caught and converted into
`{status: "fail", error: str(e), progress: 0}` — the function is total, no
exception propagates.  Stages in order: read the input (a missing
`video_url` key raises `KeyError`), resolve the scene id, download,
prepare the dataset via subprocess, train via subprocess, publish; each
boundary emits its fixed progress milestones.  Cleanup of the scene
workspace is attempted only on the success path, after the `done`
milestone, and its failure is logged without changing the returned
result. -/
def handler (env : HandlerEnv) (job : Job) : HandlerOut :=
  if job.hasVideoUrl = false then
    ⟨[], JobResult.fail (pyQuoted "video_url") 0, false, false⟩
  else if env.downloadOk = false then
    ⟨[(0, "downloading_video")], JobResult.fail env.downloadErrMsg 0, false, false⟩
  else if prepOk env job = false then
    ⟨[(0, "downloading_video"), (10, "video_downloaded"), (10, "preparing_dataset")],
      JobResult.fail (calledProcessErrorMsg (prepareCmd (sceneRootOf env job) job.fps) 1) 0,
      false, false⟩
  else if env.trainExitCode = 0 then
    if uploadOkB env job = false then
      ⟨[(0, "downloading_video"), (10, "video_downloaded"), (10, "preparing_dataset"),
          (30, "dataset_ready"), (30, "training"), (90, "training_complete"),
          (90, "uploading")],
        JobResult.fail (uploadErrOf env job) 0, false, false⟩
    else
      ⟨fullUpdates,
        JobResult.success (sceneIdOf env.freshUuid job) 100 (uploadUrlOf env job),
        true, env.cleanupOk⟩
  else
    ⟨[(0, "downloading_video"), (10, "video_downloaded"), (10, "preparing_dataset"),
        (30, "dataset_ready"), (30, "training")],
      JobResult.fail (calledProcessErrorMsg (trainCmd (sceneRootOf env job) job.iterations)
        env.trainExitCode) 0, false, false⟩

/-- Whether every pipeline stage of one run succeeds. -/
def pipelineOkB (env : HandlerEnv) (job : Job) : Bool :=
  job.hasVideoUrl && env.downloadOk && prepOk env job &&
    (env.trainExitCode == 0) && uploadOkB env job

/-- The `str(e)` of the first failing stage's exception — the message the
handler's `except` block captures. -/
def firstErrorMsg (env : HandlerEnv) (job : Job) : String :=
  if job.hasVideoUrl = false then pyQuoted "video_url"
  else if env.downloadOk = false then env.downloadErrMsg
  else if prepOk env job = false then
    calledProcessErrorMsg (prepareCmd (sceneRootOf env job) job.fps) 1
  else if env.trainExitCode = 0 then uploadErrOf env job
  else calledProcessErrorMsg (trainCmd (sceneRootOf env job) job.iterations)
    env.trainExitCode

/-- Predicate stating that `l` is an initial segment of `full`. -/
def IsInitialSegment (l full : List (Nat × String)) : Prop :=
  ∃ t, l ++ t = full

/-- A dataset-preparation environment whose video yields 42 frames and
whose COLMAP stages all succeed, producing `sparse/0`. -/
def penvOk : PrepEnv := ⟨true, List.replicate 42 "frame.jpg", true, true, true, ["0"]⟩

/-- A publish environment with boto3 available and a succeeding S3 upload
against a configured MinIO endpoint. -/
def uenvOk : UploadEnv :=
  ⟨true, true, "", 200, "", "", "ak", "sk", "http://minio:9000", "gsplatt-results"⟩

/-- A job request with scene id `abc123`, 100 iterations, fps 2. -/
def jobOk : Job := ⟨true, "http://example.com/v.mp4", some "abc123", 100, 2⟩

/-- A handler environment in which every stage succeeds. -/
def envOk : HandlerEnv :=
  ⟨"7f4d2c9a-1b2c-4d5e-8f90-a1b2c3d4e5f6", true, "", penvOk, none, 0, uenvOk,
    "model", fun _ => none, true⟩

/-- A dataset-preparation environment whose extraction yields only 2
frames (everything else fine). -/
def penv2 : PrepEnv :=
  ⟨true, ["frame_00001.jpg", "frame_00002.jpg"], true, true, true, ["0"]⟩

/-- A handler environment in which extraction yields 2 frames, so the
dataset-preparation subprocess exits nonzero; all other stages would
succeed. -/
def envC1 : HandlerEnv :=
  ⟨"7f4d2c9a-1b2c-4d5e-8f90-a1b2c3d4e5f6", true, "", penv2, none, 0, uenvOk,
    "model", fun _ => none, true⟩

/-- A handler environment whose download fails with an HTTP 404 (all other
stages would succeed). -/
def envC2 : HandlerEnv :=
  ⟨"7f4d2c9a-1b2c-4d5e-8f90-a1b2c3d4e5f6", false,
    "404 Client Error: Not Found for url: http://example.com/v.mp4", penvOk,
    none, 0, uenvOk, "model", fun _ => none, true⟩

/-- A job request with no caller-supplied scene id. -/
def jobNoId : Job := ⟨true, "http://example.com/v.mp4", none, 30000, 2⟩

/-- The COLMAP stage trace always begins with the feature-extraction
invocation. -/
theorem colmap_trace_head (env : PrepEnv) :
    (run_colmap_pipeline env).1.head? = some PrepEv.featureExtraction := by
  unfold run_colmap_pipeline
  by_cases h1 : env.featOk = false <;> by_cases h2 : env.matchOk = false <;>
    by_cases h3 : env.mapOk = false <;> simp [h1, h2, h3]

/-- The reconstruction-directory check never produces the
insufficient-frames error. -/
theorem selectReconstruction_ne_insufficient (entries : List String) (n : Nat) :
    selectReconstruction entries ≠ Except.error (PrepErr.insufficientFrames n) := by
  unfold selectReconstruction
  by_cases h0 : "0" ∈ entries
  · simp [h0]
  · simp only [h0, if_false]
    cases entries with
    | nil => simp
    | cons e rest => simp

/-- The COLMAP pipeline never produces the insufficient-frames error. -/
theorem colmap_ne_insufficient (env : PrepEnv) (n : Nat) :
    (run_colmap_pipeline env).2 ≠ Except.error (PrepErr.insufficientFrames n) := by
  unfold run_colmap_pipeline
  by_cases h1 : env.featOk = false
  · simp [h1]
  · by_cases h2 : env.matchOk = false
    · simp [h1, h2]
    · by_cases h3 : env.mapOk = false
      · simp [h1, h2, h3]
      · rw [if_neg h1, if_neg h2, if_neg h3]
        exact selectReconstruction_ne_insufficient env.sparseEntries n

/-- On a successful extraction of at least 3 frames, `prepare_scene`
reduces to duplication followed by the COLMAP pipeline. -/
theorem prepare_scene_ge3 (env : PrepEnv) (fps : Nat)
    (initImages : Option (List String)) (h : env.ffmpegOk = true)
    (h3 : 3 ≤ env.extractedFrames.length) :
    prepare_scene env fps initImages =
      ⟨PrepEv.ffmpegExtract ::
          ((if initImages.isSome then [PrepEv.rmImagesDir] else []) ++
            PrepEv.copyImagesDir :: (run_colmap_pipeline env).1),
        some env.extractedFrames, (run_colmap_pipeline env).2⟩ := by
  have hlt : ¬ env.extractedFrames.length < 3 := by omega
  unfold prepare_scene extract_frames
  rw [h]
  simp [hlt]

/-- C3: whenever frame extraction succeeds, dataset preparation fails with
the insufficient-input error exactly when fewer than 3 frames were
extracted, and in that case no reconstruction invocation (feature
extraction, matching or mapping) occurs; the threshold 3 is a fixed
literal, the same for every configuration (every `fps` value). -/
theorem prepare_min_frames_threshold (env : PrepEnv) (fps : Nat)
    (initImages : Option (List String)) (h : env.ffmpegOk = true) :
    ((prepare_scene env fps initImages).result =
        Except.error (PrepErr.insufficientFrames env.extractedFrames.length) ↔
      env.extractedFrames.length < 3) ∧
    (env.extractedFrames.length < 3 →
      PrepEv.featureExtraction ∉ (prepare_scene env fps initImages).trace ∧
      PrepEv.exhaustiveMatcher ∉ (prepare_scene env fps initImages).trace ∧
      PrepEv.mapper ∉ (prepare_scene env fps initImages).trace) := by
  by_cases hlt : env.extractedFrames.length < 3
  · have hout : prepare_scene env fps initImages =
        ⟨[PrepEv.ffmpegExtract], initImages,
          Except.error (PrepErr.insufficientFrames env.extractedFrames.length)⟩ := by
      unfold prepare_scene extract_frames
      rw [h]
      simp [hlt]
    rw [hout]
    simp [hlt]
  · have h3 : 3 ≤ env.extractedFrames.length := by omega
    rw [prepare_scene_ge3 env fps initImages h h3]
    constructor
    · constructor
      · intro hres
        exact absurd hres (colmap_ne_insufficient env _)
      · intro hcon
        exact absurd hcon hlt
    · intro hcon
      exact absurd hcon hlt

/-- C4: with the three COLMAP stages succeeding, the pipeline raises the
reconstruction failure exactly when no entry exists under `sparse`; if
`sparse/0` exists it is selected, and otherwise the first available entry
is selected instead of failing. -/
theorem colmap_reconstruction_fallback (env : PrepEnv)
    (h : env.featOk = true ∧ env.matchOk = true ∧ env.mapOk = true) :
    ((run_colmap_pipeline env).2 = Except.error PrepErr.reconstructionFailure ↔
      env.sparseEntries = []) ∧
    ("0" ∈ env.sparseEntries → (run_colmap_pipeline env).2 = Except.ok "0") ∧
    (∀ e rest, env.sparseEntries = e :: rest → "0" ∉ env.sparseEntries →
      (run_colmap_pipeline env).2 = Except.ok e) := by
  obtain ⟨h1, h2, h3⟩ := h
  unfold run_colmap_pipeline selectReconstruction
  simp only [h1, h2, h3, Bool.true_eq_false, if_false]
  refine ⟨?_, ?_, ?_⟩
  · by_cases h0 : "0" ∈ env.sparseEntries
    · simp only [h0, if_true]
      constructor
      · intro hres; exact absurd hres (by simp)
      · intro hnil; rw [hnil] at h0; exact absurd h0 (by simp)
    · simp only [h0, if_false]
      cases henv : env.sparseEntries with
      | nil => simp
      | cons e rest => simp
  · intro h0; simp [h0]
  · intro e rest herest h0
    rw [herest] at h0 ⊢
    simp [h0]

/-- C6: with at least 3 extracted frames, the working-images directory is
wholesale replaced by a copy of the extracted frames (old contents absent
afterwards), and this duplication happens before any reconstruction
invocation: the trace is extraction, then the remove (when a previous
directory existed) and copy, then the COLMAP stages starting with feature
extraction. -/
theorem prepare_duplication_before_reconstruction (env : PrepEnv) (fps : Nat)
    (initImages : Option (List String)) (h : env.ffmpegOk = true)
    (h3 : 3 ≤ env.extractedFrames.length) :
    (prepare_scene env fps initImages).imagesDir = some env.extractedFrames ∧
    (∀ f, f ∈ initImages.getD [] → f ∉ env.extractedFrames →
      f ∉ ((prepare_scene env fps initImages).imagesDir.getD [])) ∧
    (∃ t, (prepare_scene env fps initImages).trace =
        PrepEv.ffmpegExtract ::
          ((if initImages.isSome then [PrepEv.rmImagesDir] else []) ++
            PrepEv.copyImagesDir :: t) ∧
      t.head? = some PrepEv.featureExtraction) := by
  rw [prepare_scene_ge3 env fps initImages h h3]
  refine ⟨rfl, ?_, ?_⟩
  · intro f _ hnot
    simpa using hnot
  · exact ⟨(run_colmap_pipeline env).1, rfl, colmap_trace_head env⟩

/-- Counterexample to C8: a fetch with a 200 response whose destination
parent directory is absent fails with `FileNotFoundError` and does not
create the parent directory — `download_video` never creates parent
directories. -/
theorem download_video_no_parent_creation_cex :
    (download_video 200 ["ab"] false "/workspace/scenes/x/input.mp4" none).result =
      Except.error (FetchErr.fileNotFound "/workspace/scenes/x/input.mp4") ∧
    (download_video 200 ["ab"] false "/workspace/scenes/x/input.mp4" none).parentExists =
      false ∧
    (download_video 200 ["ab"] false "/workspace/scenes/x/input.mp4" none).dst = none := by
  refine ⟨?_, ?_, ?_⟩ <;> rfl

/-- C8 (amended): the fetcher validates the HTTP status before opening the
destination — on an error status (4xx/5xx) it fails and the destination
receives no bytes; it does not create absent parent directories (the call
fails with the destination unchanged when the parent is missing); and on a
successful status with the parent present it overwrites the destination
with exactly the streamed chunks, independent of any previous content
(truncating write, never append). -/
theorem download_video_behaviour (status : Nat) (chunks : List String)
    (p : Bool) (dstPath : String) (dst0 : Option String) :
    (400 ≤ status ∧ status < 600 →
      download_video status chunks p dstPath dst0 =
        ⟨Except.error (FetchErr.httpError status), p, dst0⟩) ∧
    (¬ (400 ≤ status ∧ status < 600) → p = false →
      download_video status chunks p dstPath dst0 =
        ⟨Except.error (FetchErr.fileNotFound dstPath), false, dst0⟩) ∧
    (¬ (400 ≤ status ∧ status < 600) → p = true →
      (download_video status chunks p dstPath dst0).dst =
        some (String.join (chunks.filter (fun c => ¬ c = ""))) ∧
      download_video status chunks p dstPath dst0 =
        download_video status chunks p dstPath none) := by
  refine ⟨?_, ?_, ?_⟩
  · intro herr
    unfold download_video
    rw [if_pos herr]
  · intro herr hp
    subst hp
    unfold download_video
    rw [if_neg herr]
    rfl
  · intro herr hp
    subst hp
    unfold download_video
    rw [if_neg herr, if_neg herr]
    exact ⟨rfl, rfl⟩

/-- Witness for `download_video_behaviour` at a concrete input: a 404
download fails leaving the (existing) destination untouched, and a 200
download over a previous file replaces it with the new chunks. -/
theorem download_video_behaviour_witness :
    download_video 404 ["ab"] true "/w/v.mp4" (some "old") =
      ⟨Except.error (FetchErr.httpError 404), true, some "old"⟩ ∧
    (download_video 200 ["ab", "", "cd"] true "/w/v.mp4" (some "old")).dst =
      some "abcd" ∧
    download_video 200 ["ab", "", "cd"] true "/w/v.mp4" (some "old") =
      download_video 200 ["ab", "", "cd"] true "/w/v.mp4" none := by
  refine ⟨(download_video_behaviour 404 ["ab"] true "/w/v.mp4" (some "old")).1
    (by omega), ?_, ?_⟩
  · have h := ((download_video_behaviour 200 ["ab", "", "cd"] true "/w/v.mp4"
      (some "old")).2.2 (by omega) rfl).1
    rw [h]
    rfl
  · exact ((download_video_behaviour 200 ["ab", "", "cd"] true "/w/v.mp4"
      (some "old")).2.2 (by omega) rfl).2

/-- Counterexample to C7: the active strategy is not selected by which
configuration is present.  With no object-storage configuration and a
configured HTTP endpoint (spec selection: the HTTP sink), but boto3
importable, the code still attempts the S3 strategy and fails, even though
the configured HTTP sink would have succeeded. -/
theorem upload_sink_not_config_selected_cex :
    sinkSelectedByConfig uenvX = some Sink.http ∧
    (upload_results_s3 uenvX "/workspace/scenes/abc" "abc" "model"
      (fun _ => none)).sink = Sink.s3 ∧
    (upload_results_s3 uenvX "/workspace/scenes/abc" "abc" "model"
      (fun _ => none)).result = Except.error (UploadErr.s3Failure "AccessDenied") ∧
    (upload_results_simple uenvX "/workspace/scenes/abc" "abc" "model"
      (fun _ => none)).result = Except.ok "http://sink.example/abc.zip" := by
  refine ⟨?_, ?_, ?_, ?_⟩ <;> rfl

/-- C7 (amended): the object-storage strategy is attempted for every
publish whenever the boto3 client is importable, regardless of which
configuration is present; it falls back internally to the HTTP strategy
exactly when boto3 is unavailable; and publishing fails when the active
sink rejects the request (S3 upload exception, or HTTP 4xx/5xx status), or
when the HTTP strategy is active and no HTTP endpoint is configured. -/
theorem upload_sink_selection (env : UploadEnv) (parent sid content : String)
    (fs : String → Option String) :
    ((upload_results_s3 env parent sid content fs).sink = Sink.s3 ↔
      env.boto3Available = true) ∧
    (env.boto3Available = false → env.OUTPUT_BUCKET_URL = "" →
      (upload_results_s3 env parent sid content fs).result =
        Except.error UploadErr.noBucketUrl) ∧
    (env.boto3Available = false → ¬ env.OUTPUT_BUCKET_URL = "" →
      400 ≤ env.putStatus → env.putStatus < 600 →
      (upload_results_s3 env parent sid content fs).result =
        Except.error (UploadErr.httpFailure env.putStatus
          (env.OUTPUT_BUCKET_URL ++ "/" ++ zipName sid))) ∧
    (env.boto3Available = true → env.s3UploadOk = false →
      (upload_results_s3 env parent sid content fs).result =
        Except.error (UploadErr.s3Failure env.s3ErrMsg)) ∧
    (env.boto3Available = true → env.s3UploadOk = true →
      (upload_results_s3 env parent sid content fs).result =
        Except.ok (s3PublicUrl env sid)) := by
  refine ⟨?_, ?_, ?_, ?_, ?_⟩
  · by_cases hb : env.boto3Available
    · unfold upload_results_s3
      rw [if_pos hb]
      by_cases hs : env.s3UploadOk <;> simp [hs, hb]
    · unfold upload_results_s3 upload_results_simple
      rw [if_neg hb]
      have hb2 : env.boto3Available = false := by
        cases henv : env.boto3Available
        · rfl
        · exact absurd henv hb
      by_cases hu : env.OUTPUT_BUCKET_URL = ""
      · simp [hu, hb2]
      · rw [if_neg hu]
        by_cases hst : 400 ≤ env.putStatus ∧ env.putStatus < 600 <;>
          simp [hst, hb2]
  · intro hb hu
    unfold upload_results_s3 upload_results_simple
    rw [hb]
    simp [hu]
  · intro hb hu h4 h6
    unfold upload_results_s3 upload_results_simple
    rw [hb]
    simp only [Bool.false_eq_true, if_false, hu, if_neg hu]
    rw [if_pos ⟨h4, h6⟩]
  · intro hb hs
    unfold upload_results_s3
    rw [hb, hs]
    simp
  · intro hb hs
    unfold upload_results_s3
    rw [hb, hs]
    simp

/-- Witness for `upload_sink_selection` at concrete inputs: with boto3
absent and no bucket URL configured the publish fails with the
`ValueError`, and with boto3 present and a succeeding upload it returns the
constructed public URL. -/
theorem upload_sink_selection_witness :
    (upload_results_s3 ⟨false, true, "", 200, "", "", "", "", "", "b"⟩
      "/w" "abc" "m" (fun _ => none)).result =
      Except.error UploadErr.noBucketUrl ∧
    (upload_results_s3 ⟨true, true, "", 200, "", "", "ak", "sk",
        "http://minio:9000", "gsplatt-results"⟩
      "/w" "abc" "m" (fun _ => none)).result =
      Except.ok "http://minio:9000/gsplatt-results/results/abc.zip" := by
  constructor
  · exact (upload_sink_selection ⟨false, true, "", 200, "", "", "", "", "", "b"⟩
      "/w" "abc" "m" (fun _ => none)).2.1 rfl rfl
  · have h := (upload_sink_selection ⟨true, true, "", 200, "", "", "ak", "sk",
        "http://minio:9000", "gsplatt-results"⟩
      "/w" "abc" "m" (fun _ => none)).2.2.2.2 rfl rfl
    rw [h]
    rfl

/-- C9: whenever a sink is available (boto3 importable, or an HTTP endpoint
configured), a publish attempt produces exactly one archive, at the path
determined by the scene id (the scene id with the fixed `.zip` extension,
directly under the result directory's parent), touching no other path; and
a second publish attempt with the same scene id writes the same path again
— overwriting, never accumulating. -/
theorem publish_archive_unique (env : UploadEnv) (parent sid c1 c2 : String)
    (fs : String → Option String)
    (h : env.boto3Available = true ∨ ¬ env.OUTPUT_BUCKET_URL = "") :
    (upload_results_s3 env parent sid c1 fs).fs (zipPath parent sid) = some c1 ∧
    (∀ p, ¬ p = zipPath parent sid →
      (upload_results_s3 env parent sid c1 fs).fs p = fs p) ∧
    zipPath parent sid = parent ++ "/" ++ sid ++ ".zip" ∧
    (upload_results_s3 env parent sid c2
        ((upload_results_s3 env parent sid c1 fs).fs)).fs (zipPath parent sid) =
      some c2 ∧
    (∀ p, ¬ p = zipPath parent sid →
      (upload_results_s3 env parent sid c2
        ((upload_results_s3 env parent sid c1 fs).fs)).fs p = fs p) := by
  have harch : ∀ (c : String) (g : String → Option String),
      (upload_results_s3 env parent sid c g).fs = make_archive parent sid c g := by
    intro c g
    unfold upload_results_s3 upload_results_simple
    rcases h with hb | hu
    · rw [hb]
      by_cases hs : env.s3UploadOk <;> simp [hs]
    · by_cases hb : env.boto3Available
      · simp only [hb, if_true]
        by_cases hs : env.s3UploadOk <;> simp [hs]
      · rw [if_neg hb, if_neg hu]
        by_cases hst : 400 ≤ env.putStatus ∧ env.putStatus < 600 <;> simp [hst]
  have hzip : zipPath parent sid = parent ++ "/" ++ sid ++ ".zip" := by
    apply String.ext
    simp [zipPath, zipName, String.data_append]
  refine ⟨?_, ?_, hzip, ?_, ?_⟩
  · rw [harch c1 fs]
    unfold make_archive
    simp
  · intro p hp
    rw [harch c1 fs]
    unfold make_archive
    simp [hp]
  · rw [harch c2 _]
    unfold make_archive
    simp
  · intro p hp
    rw [harch c2 _, harch c1 fs]
    unfold make_archive
    simp [hp]

/-- Witness for `publish_archive_unique` at a concrete input: two
successive publishes for scene `abc` leave a single archive at
`/w/abc.zip`, holding the second content, and an unrelated path
untouched. -/
theorem publish_archive_unique_witness :
    (upload_results_s3 uenvX "/w" "abc" "m1" (fun _ => none)).fs "/w/abc.zip" =
      some "m1" ∧
    (upload_results_s3 uenvX "/w" "abc" "m2"
      ((upload_results_s3 uenvX "/w" "abc" "m1" (fun _ => none)).fs)).fs
        "/w/abc.zip" = some "m2" ∧
    (upload_results_s3 uenvX "/w" "abc" "m2"
      ((upload_results_s3 uenvX "/w" "abc" "m1" (fun _ => none)).fs)).fs
        "/w/other.txt" = none := by
  have h := publish_archive_unique uenvX "/w" "abc" "m1" "m2" (fun _ => none)
    (Or.inl rfl)
  refine ⟨h.1, ?_, ?_⟩
  · have := h.2.2.2.1
    rwa [show zipPath "/w" "abc" = "/w/abc.zip" from rfl] at this
  · exact h.2.2.2.2 "/w/other.txt" (by decide)

/-- C5: the progress updates of a fully successful run are exactly
0, 10, 10, 30, 30, 90, 90, 100 with their stage tags (hence
non-decreasing), and every run — in particular every failing one — emits
an initial segment of that sequence, truncated exactly at the last
milestone reached before the first failing stage. -/
theorem handler_progress_milestones (env : HandlerEnv) (job : Job) :
    IsInitialSegment (handler env job).updates fullUpdates ∧
    (pipelineOkB env job = true → (handler env job).updates = fullUpdates) ∧
    (job.hasVideoUrl = false → (handler env job).updates = []) ∧
    (job.hasVideoUrl = true → env.downloadOk = false →
      (handler env job).updates = fullUpdates.take 1) ∧
    (job.hasVideoUrl = true → env.downloadOk = true → prepOk env job = false →
      (handler env job).updates = fullUpdates.take 3) ∧
    (job.hasVideoUrl = true → env.downloadOk = true → prepOk env job = true →
      ¬ env.trainExitCode = 0 → (handler env job).updates = fullUpdates.take 5) ∧
    (job.hasVideoUrl = true → env.downloadOk = true → prepOk env job = true →
      env.trainExitCode = 0 → uploadOkB env job = false →
      (handler env job).updates = fullUpdates.take 7) := by
  unfold handler
  by_cases h1 : job.hasVideoUrl = false
  · rw [if_pos h1]
    refine ⟨⟨fullUpdates, rfl⟩, ?_, ?_, ?_, ?_, ?_, ?_⟩ <;> intros <;>
      first
      | rfl
      | (exfalso; simp_all [pipelineOkB])
  · rw [if_neg h1]
    rw [Bool.not_eq_false] at h1
    by_cases h2 : env.downloadOk = false
    · rw [if_pos h2]
      refine ⟨⟨[(10, "video_downloaded"), (10, "preparing_dataset"),
        (30, "dataset_ready"), (30, "training"), (90, "training_complete"),
        (90, "uploading"), (100, "done")], rfl⟩, ?_, ?_, ?_, ?_, ?_, ?_⟩ <;> intros <;>
        first
        | rfl
        | (exfalso; simp_all [pipelineOkB])
    · rw [if_neg h2]
      rw [Bool.not_eq_false] at h2
      by_cases h3 : prepOk env job = false
      · rw [if_pos h3]
        refine ⟨⟨[(30, "dataset_ready"), (30, "training"), (90, "training_complete"),
          (90, "uploading"), (100, "done")], rfl⟩, ?_, ?_, ?_, ?_, ?_, ?_⟩ <;> intros <;>
          first
          | rfl
          | (exfalso; simp_all [pipelineOkB])
      · rw [if_neg h3]
        rw [Bool.not_eq_false] at h3
        by_cases h4 : env.trainExitCode = 0
        · rw [if_pos h4]
          by_cases h5 : uploadOkB env job = false
          · rw [if_pos h5]
            refine ⟨⟨[(100, "done")], rfl⟩, ?_, ?_, ?_, ?_, ?_, ?_⟩ <;> intros <;>
              first
              | rfl
              | (exfalso; simp_all [pipelineOkB])
          · rw [if_neg h5]
            rw [Bool.not_eq_false] at h5
            refine ⟨⟨[], List.append_nil _⟩, ?_, ?_, ?_, ?_, ?_, ?_⟩ <;> intros <;>
              first
              | rfl
              | (exfalso; simp_all [pipelineOkB])
        · rw [if_neg h4]
          refine ⟨⟨[(90, "training_complete"), (90, "uploading"), (100, "done")],
            rfl⟩, ?_, ?_, ?_, ?_, ?_, ?_⟩ <;> intros <;>
            first
            | rfl
            | (exfalso; simp_all [pipelineOkB])

/-- Witness for `handler_progress_milestones`: the concrete all-successful
run emits exactly the full milestone sequence. -/
theorem handler_progress_milestones_witness :
    IsInitialSegment (handler envOk jobOk).updates fullUpdates ∧
    (handler envOk jobOk).updates = fullUpdates :=
  ⟨(handler_progress_milestones envOk jobOk).1,
    (handler_progress_milestones envOk jobOk).2.1 (by decide)⟩

/-- Counterexample to C1: for the run whose extraction yields 2 frames the
handler does emit milestones up to 10 and return a fail result whose error
mentions "3", but the returned progress is the hard-coded 0 of the
`except` block (rp_handler.py line 248), not the milestone 10 the claim
requires. -/
theorem handler_failure_progress_cex :
    (handler envC1 jobOk).result.statusOf = "fail" ∧
    (handler envC1 jobOk).updates.map Prod.fst = [0, 10, 10] ∧
    (handler envC1 jobOk).result.progressOf = 0 ∧
    ¬ (handler envC1 jobOk).result.progressOf = 10 ∧
    (((handler envC1 jobOk).result.errorOf.getD "").data.contains '3') = true := by
  refine ⟨?_, ?_, ?_, by decide, ?_⟩ <;> decide

/-- C1 (amended): for every job whose pipeline fails at any stage, the
handler catches the failure (it is a total function — no exception
propagates to the invoking runtime) and returns a Job Result with status
"fail", the captured error message of the first failing stage, and
progress 0 regardless of the milestones reached before the failure. -/
theorem handler_failure_uniform_result (env : HandlerEnv) (job : Job)
    (h : pipelineOkB env job = false) :
    (handler env job).result = JobResult.fail (firstErrorMsg env job) 0 := by
  simp only [handler, firstErrorMsg]
  by_cases h1 : job.hasVideoUrl = false
  · simp only [if_pos h1]
  · simp only [if_neg h1]
    rw [Bool.not_eq_false] at h1
    by_cases h2 : env.downloadOk = false
    · simp only [if_pos h2]
    · simp only [if_neg h2]
      rw [Bool.not_eq_false] at h2
      by_cases h3 : prepOk env job = false
      · simp only [if_pos h3]
      · simp only [if_neg h3]
        rw [Bool.not_eq_false] at h3
        by_cases h4 : env.trainExitCode = 0
        · simp only [if_pos h4]
          by_cases h5 : uploadOkB env job = false
          · simp only [if_pos h5]
          · exfalso
            rw [Bool.not_eq_false] at h5
            simp [pipelineOkB, h1, h2, h3, h4, h5] at h
        · simp only [if_neg h4]

/-- Witness for `handler_failure_uniform_result`: applied to the concrete
2-frame run. -/
theorem handler_failure_uniform_result_witness :
    (handler envC1 jobOk).result = JobResult.fail (firstErrorMsg envC1 jobOk) 0 :=
  handler_failure_uniform_result envC1 jobOk (by decide)

/-- Counterexample to C2: on a failing run (download error) the handler
never attempts workspace cleanup — the `shutil.rmtree` sits on the success
path only (rp_handler.py lines 230-234), not in the `except` block or a
`finally`. -/
theorem handler_no_cleanup_on_failure_cex :
    (handler envC2 jobOk).result.statusOf = "fail" ∧
    (handler envC2 jobOk).cleanupAttempted = false ∧
    (handler envC2 jobOk).workspaceRemoved = false := by
  refine ⟨?_, ?_, ?_⟩ <;> decide

/-- The handler's returned result does not depend on whether the final
cleanup succeeds. -/
theorem handler_result_ignores_cleanup (fu dmsg : String) (dok : Bool)
    (penv : PrepEnv) (img0 : Option (List String)) (tc : Nat) (uenv : UploadEnv)
    (oc : String) (fs0 : String → Option String) (c1 c2 : Bool) (job : Job) :
    (handler ⟨fu, dok, dmsg, penv, img0, tc, uenv, oc, fs0, c1⟩ job).result =
      (handler ⟨fu, dok, dmsg, penv, img0, tc, uenv, oc, fs0, c2⟩ job).result := by
  simp only [handler, prepOk, uploadOkB, uploadErrOf, uploadUrlOf, uploadRes,
    sceneRootOf, sceneIdOf]
  by_cases h1 : job.hasVideoUrl = false
  · simp only [if_pos h1]
  · simp only [if_neg h1]
    by_cases h2 : dok = false
    · simp only [if_pos h2]
    · simp only [if_neg h2]
      rcases hp : (prepare_scene penv job.fps img0).result with e | v <;>
        simp only [hp] <;>
        by_cases h4 : tc = 0 <;>
        simp only [if_pos, if_neg, h4, if_true] <;>
        first
        | rfl
        | · rcases hu : (upload_results_s3 uenv
              (WORKDIR ++ "/scenes/" ++
                (match job.scene_id with
                  | some s => if s = "" then fu else s
                  | none => fu))
              (match job.scene_id with
                | some s => if s = "" then fu else s
                | none => fu) oc fs0).result with e2 | u <;> simp [hu]

/-- C2 (amended): the handler attempts best-effort removal of the scene
workspace exactly on successful runs — after the final milestone and
before returning — and a failure of that cleanup is logged but never
changes the returned Job Result; on failing runs no cleanup is attempted
and the workspace is left in place. -/
theorem handler_cleanup_only_on_success (env : HandlerEnv) (job : Job) :
    ((handler env job).cleanupAttempted = pipelineOkB env job) ∧
    ((handler env job).workspaceRemoved = (pipelineOkB env job && env.cleanupOk)) ∧
    (∀ b : Bool, (handler { env with cleanupOk := b } job).result =
      (handler env job).result) ∧
    (pipelineOkB env job = true → (handler env job).result.statusOf = "success") := by
  refine ⟨?_, ?_, ?_, ?_⟩
  · unfold handler
    by_cases h1 : job.hasVideoUrl = false
    · simp only [if_pos h1]
      simp [pipelineOkB, h1]
    · simp only [if_neg h1]
      rw [Bool.not_eq_false] at h1
      by_cases h2 : env.downloadOk = false
      · simp only [if_pos h2]
        simp [pipelineOkB, h2]
      · simp only [if_neg h2]
        rw [Bool.not_eq_false] at h2
        by_cases h3 : prepOk env job = false
        · simp only [if_pos h3]
          simp [pipelineOkB, h3]
        · simp only [if_neg h3]
          rw [Bool.not_eq_false] at h3
          by_cases h4 : env.trainExitCode = 0
          · simp only [if_pos h4]
            by_cases h5 : uploadOkB env job = false
            · simp only [if_pos h5]
              simp [pipelineOkB, h5]
            · simp only [if_neg h5]
              rw [Bool.not_eq_false] at h5
              simp [pipelineOkB, h1, h2, h3, h4, h5]
          · simp only [if_neg h4]
            simp [pipelineOkB, h4]
  · unfold handler
    by_cases h1 : job.hasVideoUrl = false
    · simp only [if_pos h1]
      simp [pipelineOkB, h1]
    · simp only [if_neg h1]
      rw [Bool.not_eq_false] at h1
      by_cases h2 : env.downloadOk = false
      · simp only [if_pos h2]
        simp [pipelineOkB, h2]
      · simp only [if_neg h2]
        rw [Bool.not_eq_false] at h2
        by_cases h3 : prepOk env job = false
        · simp only [if_pos h3]
          simp [pipelineOkB, h3]
        · simp only [if_neg h3]
          rw [Bool.not_eq_false] at h3
          by_cases h4 : env.trainExitCode = 0
          · simp only [if_pos h4]
            by_cases h5 : uploadOkB env job = false
            · simp only [if_pos h5]
              simp [pipelineOkB, h5]
            · simp only [if_neg h5]
              rw [Bool.not_eq_false] at h5
              simp [pipelineOkB, h1, h2, h3, h4, h5]
          · simp only [if_neg h4]
            simp [pipelineOkB, h4]
  · intro b
    obtain ⟨fu, dok, dmsg, penv, img0, tc, uenv, oc, fs0, cok⟩ := env
    exact handler_result_ignores_cleanup fu dmsg dok penv img0 tc uenv oc fs0 b cok job
  · intro hok
    unfold pipelineOkB at hok
    simp only [Bool.and_eq_true, beq_iff_eq] at hok
    obtain ⟨⟨⟨⟨h1, h2⟩, h3⟩, h4⟩, h5⟩ := hok
    unfold handler
    rw [if_neg (by simp [h1]), if_neg (by simp [h2]), if_neg (by simp [h3]),
      if_pos h4, if_neg (by simp [h5])]
    rfl

/-- Witness for `handler_cleanup_only_on_success`: on the concrete
all-successful run the cleanup is attempted and the result is a success. -/
theorem handler_cleanup_only_on_success_witness :
    (handler envOk jobOk).cleanupAttempted = true ∧
    (handler envOk jobOk).result.statusOf = "success" := by
  have h := handler_cleanup_only_on_success envOk jobOk
  refine ⟨?_, h.2.2.2 (by decide)⟩
  rw [h.1]
  decide

/-- Appending a non-empty string strictly extends a string. -/
theorem string_append_ne_self (a b : String) (hb : ¬ b = "") : ¬ a ++ b = a := by
  intro hab
  apply hb
  have hlen := congrArg String.length hab
  rw [String.length_append] at hlen
  have hz : b.length = 0 := by omega
  apply String.ext
  have hd : b.data.length = 0 := hz
  simpa using List.length_eq_zero.mp hd

/-- C10: whenever the fresh UUID is (as `str(uuid.uuid4())` guarantees)
non-empty, an absent or empty caller-supplied scene id is replaced by the
fresh UUID, the resolved scene id is never the empty string — so the
workspace directory is never the bare `scenes/` root — and the scene id of
every success Job Result is the resolved (hence non-empty) scene id. -/
theorem handler_scene_id_nonempty (env : HandlerEnv) (job : Job)
    (h : ¬ env.freshUuid = "") :
    ((job.scene_id = none ∨ job.scene_id = some "") →
      sceneIdOf env.freshUuid job = env.freshUuid) ∧
    ¬ sceneIdOf env.freshUuid job = "" ∧
    ¬ sceneRootOf env job = WORKDIR ++ "/scenes/" ∧
    (∀ sid p url, (handler env job).result = JobResult.success sid p url →
      sid = sceneIdOf env.freshUuid job) := by
  have hne : ¬ sceneIdOf env.freshUuid job = "" := by
    unfold sceneIdOf
    rcases job.scene_id with _ | s
    · exact h
    · by_cases hs : s = ""
      · simp only [hs, if_pos rfl]
        exact h
      · simp only [if_neg hs]
        exact hs
  refine ⟨?_, hne, ?_, ?_⟩
  · intro hcase
    unfold sceneIdOf
    rcases hcase with hnone | hempty
    · rw [hnone]
    · rw [hempty]
      simp
  · exact string_append_ne_self (WORKDIR ++ "/scenes/") (sceneIdOf env.freshUuid job) hne
  · intro sid p url hres
    unfold handler at hres
    by_cases h1 : job.hasVideoUrl = false
    · rw [if_pos h1] at hres
      exact absurd hres (by simp)
    · rw [if_neg h1] at hres
      by_cases h2 : env.downloadOk = false
      · rw [if_pos h2] at hres
        exact absurd hres (by simp)
      · rw [if_neg h2] at hres
        by_cases h3 : prepOk env job = false
        · rw [if_pos h3] at hres
          exact absurd hres (by simp)
        · rw [if_neg h3] at hres
          by_cases h4 : env.trainExitCode = 0
          · rw [if_pos h4] at hres
            by_cases h5 : uploadOkB env job = false
            · rw [if_pos h5] at hres
              exact absurd hres (by simp)
            · rw [if_neg h5] at hres
              have hres2 : JobResult.success (sceneIdOf env.freshUuid job) 100
                  (uploadUrlOf env job) = JobResult.success sid p url := hres
              injection hres2 with ha hb hc
              exact ha.symm
          · rw [if_neg h4] at hres
            exact absurd hres (by simp)

/-- Witness for `handler_scene_id_nonempty`: with no supplied scene id the
fresh UUID is used and is non-empty. -/
theorem handler_scene_id_nonempty_witness :
    sceneIdOf envOk.freshUuid jobNoId = envOk.freshUuid ∧
    ¬ sceneIdOf envOk.freshUuid jobNoId = "" :=
  ⟨(handler_scene_id_nonempty envOk jobNoId (by decide)).1 (Or.inl rfl),
    (handler_scene_id_nonempty envOk jobNoId (by decide)).2.1⟩

/-- Witness for `prepare_min_frames_threshold`: the concrete 2-frame
extraction fails with the insufficient-input error and performs no COLMAP
invocation. -/
theorem prepare_min_frames_threshold_witness :
    (prepare_scene penv2 2 none).result =
      Except.error (PrepErr.insufficientFrames 2) ∧
    PrepEv.featureExtraction ∉ (prepare_scene penv2 2 none).trace := by
  have h := prepare_min_frames_threshold penv2 2 none rfl
  exact ⟨h.1.mpr (by decide), (h.2 (by decide)).1⟩

/-- Witness for `colmap_reconstruction_fallback`: with only a non-default
reconstruction directory present the fallback selects it, and with none the
reconstruction failure is raised. -/
theorem colmap_reconstruction_fallback_witness :
    (run_colmap_pipeline ⟨true, [], true, true, true, ["model_a"]⟩).2 =
      Except.ok "model_a" ∧
    (run_colmap_pipeline ⟨true, [], true, true, true, []⟩).2 =
      Except.error PrepErr.reconstructionFailure := by
  constructor
  · exact (colmap_reconstruction_fallback ⟨true, [], true, true, true, ["model_a"]⟩
      ⟨rfl, rfl, rfl⟩).2.2 "model_a" [] rfl (by decide)
  · exact (colmap_reconstruction_fallback ⟨true, [], true, true, true, []⟩
      ⟨rfl, rfl, rfl⟩).1.mpr rfl

/-- Witness for `prepare_duplication_before_reconstruction`: a concrete run
over a pre-existing `images` directory ends with `images` equal to the 42
extracted frames, the old file gone. -/
theorem prepare_duplication_before_reconstruction_witness :
    (prepare_scene penvOk 2 (some ["old.jpg"])).imagesDir =
      some penvOk.extractedFrames ∧
    "old.jpg" ∉ ((prepare_scene penvOk 2 (some ["old.jpg"])).imagesDir.getD []) := by
  have h := prepare_duplication_before_reconstruction penvOk 2 (some ["old.jpg"])
    rfl (by decide)
  exact ⟨h.1, h.2.1 "old.jpg" (by decide) (by decide)⟩

end GsplattWorker
